import Mathlib

/-!
Verification development for `src/work_log/get_google_calendar.py`.

The script's two operations, `get_events` and `get_todays_events`, are embedded
shallowly.  External collaborators (the token file, the credential parser, the
refresh call, the interactive authorization flow, the remote list endpoint and
the current clock) are collected in an environment record `Env`; the observable
side effects of one call (token-file reads and writes, refresh attempts, flow
invocations, console output, remote requests) are collected in a `Trace`.
Python exceptions are modelled with `Except String`; Python's `None` with
`Option`.
-/

/-- An event record returned by the remote service.  The script only ever
reads `start` and `summary`; other passthrough fields are not modelled. -/
structure Event where
  start : String
  summary : String
deriving DecidableEq

/-- The parameters of one remote `events().list(...)` call
(`calendarId`, `timeMin`, `timeMax`, `maxResults`, `singleEvents`, `orderBy`). -/
structure ListRequest where
  calendarId : String
  timeMin : String
  timeMax : String
  maxResults : Nat
  singleEvents : Bool
  orderBy : String
deriving DecidableEq

/-- The remote response object: a dictionary that may or may not carry an
`"items"` key (`events_result.get("items", [])`). -/
structure EventsResult where
  items : Option (List Event)
deriving DecidableEq

/-- A credential object as seen by the script: the three flags it branches on
(`creds.valid`, `creds.expired`, `creds.refresh_token` truthiness) and the
serialized form `creds.to_json()` written back to the token file. -/
structure Creds where
  valid : Bool
  expired : Bool
  refresh_token : Bool
  json : String
deriving DecidableEq

/-- The external world of one call: token-file content (`none` when the file
does not exist), `Credentials.from_authorized_user_file` as `parse`,
`creds.refresh(Request())` as `refresh`, `flow.run_local_server` as `flow`,
the built calendar service as `service`, and `datetime.now().strftime(...)`
as `now`. -/
structure Env where
  token_file : Option String
  parse : String → Creds
  refresh : Creds → Except String Creds
  flow : Except String Creds
  service : Creds → ListRequest → Except String EventsResult
  now : String

/-- The observable effects of one call: how many times the token file was
read, how many refresh attempts and interactive-flow invocations happened,
the contents written to the token file, the console lines printed, and the
remote requests issued. -/
structure Trace where
  reads : Nat
  refreshes : Nat
  flows : Nat
  writes : List String
  prints : List String
  requests : List ListRequest
deriving DecidableEq

/-- Credential acquisition, lines 51-68 of the script:
read the token file if it exists; if the loaded credentials are not valid,
refresh when they are expired and carry a refresh token (a refresh failure
raises), otherwise run the interactive flow (a flow failure raises); after a
refresh or a completed flow, write the new token back to the token file. -/
def acquire_creds (env : Env) : Except String Creds × Trace :=
  match env.token_file with
  | none =>
      match env.flow with
      | Except.ok c => (Except.ok c, ⟨0, 0, 1, [c.json], [], []⟩)
      | Except.error e => (Except.error e, ⟨0, 0, 1, [], [], []⟩)
  | some s =>
      let c := env.parse s
      if c.valid then
        (Except.ok c, ⟨1, 0, 0, [], [], []⟩)
      else if c.expired && c.refresh_token then
        match env.refresh c with
        | Except.ok c2 => (Except.ok c2, ⟨1, 1, 0, [c2.json], [], []⟩)
        | Except.error e => (Except.error e, ⟨1, 1, 0, [], [], []⟩)
      else
        match env.flow with
        | Except.ok c2 => (Except.ok c2, ⟨1, 0, 1, [c2.json], [], []⟩)
        | Except.error e => (Except.error e, ⟨1, 0, 1, [], [], []⟩)

/-- The fixed far-future upper bound used when `end_time` is missing. -/
def sentinel : String := "2038-12-31T23:59:59Z"

/-- Python truthiness on the optional `start_time` argument:
`if not start_time: start_time = datetime.datetime.now().strftime(DATETIME_FMT)`
(both `None` and the empty string are falsy). -/
def resolve_start (start_time : Option String) (now : String) : String :=
  match start_time with
  | none => now
  | some s => if s = "" then now else s

/-- Python truthiness on the optional `end_time` argument:
`if not end_time: end_time = "2038-12-31T23:59:59Z"`. -/
def resolve_end (end_time : Option String) : String :=
  match end_time with
  | none => sentinel
  | some s => if s = "" then sentinel else s

/-- The remote list request built by `get_events`:
`calendarId`, `timeMin`, `timeMax`, `maxResults`, `singleEvents=True`,
`orderBy="startTime"`. -/
def mk_request (calendar_id start_time end_time : String) (max_results : Nat) : ListRequest :=
  ⟨calendar_id, start_time, end_time, max_results, true, "startTime"⟩

/-- `get_events`, lines 30-99 of the script: acquire credentials (raising on
an acquisition failure), resolve the defaulted time window, issue the list
request, and return `events_result.get("items", [])` — except that an
`HttpError` from the remote call is printed and swallowed, leaving the
function to fall off the end and return `None` (modelled as `Option.none`). -/
def get_events (env : Env) (calendar_id : String) (start_time end_time : Option String)
    (max_results : Nat) : Except String (Option (List Event)) × Trace :=
  match acquire_creds env with
  | (Except.error e, t) => (Except.error e, t)
  | (Except.ok creds, t0) =>
      let st := resolve_start start_time env.now
      let et := resolve_end end_time
      let req := mk_request calendar_id st et max_results
      let t1 : Trace :=
        { t0 with
          prints := t0.prints ++ ["Getting the upcoming 10 events"]
          requests := t0.requests ++ [req] }
      match env.service creds req with
      | Except.ok res =>
          let events := res.items.getD []
          if events.isEmpty then
            (Except.ok (some events),
              { t1 with prints := t1.prints ++ ["No upcoming events found."] })
          else
            (Except.ok (some events), t1)
      | Except.error e =>
          (Except.ok none,
            { t1 with prints := t1.prints ++ ["An error occurred: " ++ e] })

/-- Zero-padded two-digit field of `strftime` (`%m`, `%d`, `%H`, `%M`, `%S`). -/
def pad2 (n : Nat) : String :=
  if n < 10 then "0" ++ toString n else toString n

/-- Zero-padded four-digit year field of `strftime` (`%Y`). -/
def pad4 (n : Nat) : String :=
  if n < 10 then "000" ++ toString n
  else if n < 100 then "00" ++ toString n
  else if n < 1000 then "0" ++ toString n
  else toString n

/-- `strftime` with the script's `DATETIME_FMT = "%Y-%m-%dT%H:%M:%SZ"`. -/
def strftime_datetime (y mo d h mi s : Nat) : String :=
  pad4 y ++ "-" ++ pad2 mo ++ "-" ++ pad2 d ++ "T" ++
    pad2 h ++ ":" ++ pad2 mi ++ ":" ++ pad2 s ++ "Z"

/-- `today.date().strftime(DATETIME_FMT)`: the time directives of a
date-only value render as zero. -/
def strftime_date (y mo d : Nat) : String :=
  strftime_datetime y mo d 0 0 0

/-- A calendar date, the `year`/`month`/`day` of `datetime.datetime.today()`. -/
structure Date where
  year : Nat
  month : Nat
  day : Nat
deriving DecidableEq

/-- `get_todays_events`, lines 102-123 of the script: format today's date as
the start bound and today at 23:59:59 as the end bound, print the end bound,
and delegate to `get_events`. -/
def get_todays_events (env : Env) (today : Date) (calendar_id : String)
    (max_results : Nat) : Except String (Option (List Event)) × Trace :=
  let start_time := strftime_date today.year today.month today.day
  let end_time := strftime_datetime today.year today.month today.day 23 59 59
  let r := get_events env calendar_id (some start_time) (some end_time) max_results
  (r.1, { r.2 with prints := end_time :: r.2.prints })

/-- Strict lexicographic order on character lists, by code point. -/
def lex_lt : List Char → List Char → Bool
  | [], [] => false
  | [], _ :: _ => true
  | _ :: _, [] => false
  | a :: as, b :: bs =>
      if a.toNat < b.toNat then true
      else if b.toNat < a.toNat then false
      else lex_lt as bs

/-- Lexicographic `≤` on strings; on the fixed `YYYY-MM-DDTHH:MM:SSZ` format
this coincides with chronological order. -/
def iso_le (a b : String) : Bool :=
  !(lex_lt b.data a.data)

/-- A trace writes the token file only justifiedly when it either wrote
nothing or performed a refresh or an interactive flow. -/
def writes_justified (r : Except String Creds × Trace) : Bool :=
  r.2.writes.isEmpty || (r.2.refreshes == 1 || r.2.flows == 1)

/-- Two consecutive `get_events()` queries in one process run; the script
keeps no credential state between calls, so the second call behaves exactly
like the first. -/
def run_two_queries (env : Env) : Trace × Trace :=
  ((get_events env "primary" none none 10).2, (get_events env "primary" none none 10).2)

/-- A valid, unexpired credential. -/
def credsValid : Creds := ⟨true, false, true, "tok-valid"⟩

/-- An expired credential that still carries a refresh token. -/
def credsExpired : Creds := ⟨false, true, true, "tok-old"⟩

/-- A fresh credential as produced by a refresh or by the interactive flow. -/
def credsNew : Creds := ⟨true, false, true, "tok-new"⟩

/-- A sample remote event. -/
def ev1 : Event := ⟨"2024-06-15T10:00:00Z", "standup"⟩

/-- A fully healthy environment: token file present and valid, remote call
succeeds with one event. -/
def envOk : Env :=
  ⟨some "tokfile", fun _ => credsValid, fun c => Except.ok c, Except.ok credsValid,
    fun _ _ => Except.ok ⟨some [ev1]⟩, "2024-06-15T09:00:00Z"⟩

/-- Same as `envOk` but the remote list call raises an `HttpError`. -/
def envErr : Env :=
  { envOk with service := fun _ _ => Except.error "http 404" }

/-- Same as `envOk` but the remote response carries no `"items"` key. -/
def envNoItems : Env :=
  { envOk with service := fun _ _ => Except.ok ⟨none⟩ }

/-- Token file present but expired with a refresh token; refreshing succeeds. -/
def envExpired : Env :=
  { envOk with parse := fun _ => credsExpired, refresh := fun _ => Except.ok credsNew }

/-- No token file; the interactive flow succeeds. -/
def envNoToken : Env :=
  { envOk with token_file := none, flow := Except.ok credsNew }

/-- Token file present but expired with a refresh token; refreshing raises. -/
def envRefreshFail : Env :=
  { envExpired with refresh := fun _ => Except.error "refresh failed" }

theorem acquire_creds_requests (env : Env) : (acquire_creds env).2.requests = [] := by
  unfold acquire_creds
  cases env.token_file with
  | none => cases env.flow <;> rfl
  | some s =>
    dsimp only
    split
    · rfl
    · split
      · cases env.refresh (env.parse s) <;> rfl
      · cases env.flow <;> rfl

theorem acquire_creds_prints (env : Env) : (acquire_creds env).2.prints = [] := by
  unfold acquire_creds
  cases env.token_file with
  | none => cases env.flow <;> rfl
  | some s =>
    dsimp only
    split
    · rfl
    · split
      · cases env.refresh (env.parse s) <;> rfl
      · cases env.flow <;> rfl

theorem acquire_creds_reads_of_some (env : Env) (s : String) (h : env.token_file = some s) :
    (acquire_creds env).2.reads = 1 := by
  unfold acquire_creds
  rw [h]
  dsimp only
  split
  · rfl
  · split
    · cases env.refresh (env.parse s) <;> rfl
    · cases env.flow <;> rfl

theorem get_events_reads (env : Env) (cid : String) (st et : Option String) (mr : Nat) :
    (get_events env cid st et mr).2.reads = (acquire_creds env).2.reads := by
  unfold get_events
  rcases hp : acquire_creds env with ⟨r, t⟩
  cases r with
  | error e => rfl
  | ok c =>
    dsimp only
    cases env.service c (mk_request cid (resolve_start st env.now) (resolve_end et) mr) with
    | ok res =>
      dsimp only
      split <;> rfl
    | error e => rfl

theorem get_events_requests_ok (env : Env) (cid : String) (st et : Option String) (mr : Nat)
    (c : Creds) (h : (acquire_creds env).1 = Except.ok c) :
    (get_events env cid st et mr).2.requests =
      [mk_request cid (resolve_start st env.now) (resolve_end et) mr] := by
  unfold get_events
  rcases hp : acquire_creds env with ⟨r, t⟩
  rw [hp] at h
  cases r with
  | error e => exact absurd h (by simp)
  | ok c2 =>
    dsimp only
    have ht : t.requests = [] := by
      have hq := acquire_creds_requests env
      rw [hp] at hq
      exact hq
    cases env.service c2 (mk_request cid (resolve_start st env.now) (resolve_end et) mr) with
    | ok res =>
      dsimp only
      split <;> simp [ht]
    | error e => simp [ht]

theorem get_events_ok_service (env : Env) (cid : String) (st et : Option String) (mr : Nat)
    (c : Creds) (res : EventsResult)
    (hc : (acquire_creds env).1 = Except.ok c)
    (hs : env.service c (mk_request cid (resolve_start st env.now) (resolve_end et) mr) =
      Except.ok res) :
    (get_events env cid st et mr).1 = Except.ok (some (res.items.getD [])) := by
  unfold get_events
  rcases hp : acquire_creds env with ⟨r, t⟩
  rw [hp] at hc
  cases r with
  | error e => exact absurd hc (by simp)
  | ok c2 =>
    have hcc : c2 = c := by simpa using hc
    subst hcc
    dsimp only
    rw [hs]
    dsimp only
    split <;> rfl

theorem lex_lt_append_same (l a b : List Char) : lex_lt (l ++ a) (l ++ b) = lex_lt a b := by
  induction l with
  | nil => rfl
  | cons c l ih => simp [lex_lt, ih]

theorem iso_le_strftime_day (y mo d : Nat) :
    iso_le (strftime_date y mo d) (strftime_datetime y mo d 23 59 59) = true := by
  unfold iso_le strftime_date strftime_datetime
  simp only [String.data_append, List.append_assoc, lex_lt_append_same]
  decide

theorem get_events_requests_err (env : Env) (cid : String) (st et : Option String) (mr : Nat)
    (e : String) (h : (acquire_creds env).1 = Except.error e) :
    (get_events env cid st et mr).2.requests = [] := by
  unfold get_events
  rcases hp : acquire_creds env with ⟨r, t⟩
  rw [hp] at h
  cases r with
  | ok c => exact absurd h (by simp)
  | error e2 =>
    dsimp only
    have hq := acquire_creds_requests env
    rw [hp] at hq
    exact hq

theorem strftime_ne_empty (y mo d h mi s : Nat) : ¬ strftime_datetime y mo d h mi s = "" := by
  intro hcontra
  have hlen := congrArg String.length hcontra
  have e1 : ("-" : String).length = 1 := rfl
  have e2 : ("T" : String).length = 1 := rfl
  have e3 : (":" : String).length = 1 := rfl
  have e4 : ("Z" : String).length = 1 := rfl
  have e5 : ("" : String).length = 0 := rfl
  simp only [strftime_datetime, String.length_append, e1, e2, e3, e4, e5] at hlen
  omega

/-- Claim C1: on a remote query error `get_events` prints the error and does
not propagate it; but the returned payload is `none` (the function falls off
the end of the `except` branch and returns Python `None`), not the empty
sequence the claim states. -/
theorem C1_error_behavior :
    get_events envErr "primary" none none 10 =
      (Except.ok none,
        ⟨1, 0, 0, [],
          ["Getting the upcoming 10 events", "An error occurred: http 404"],
          [mk_request "primary" "2024-06-15T09:00:00Z" sentinel 10]⟩) ∧
    decide ((none : Option (List Event)) = some ([] : List Event)) = false :=
  ⟨rfl, rfl⟩

/-- Claim C2: with neither bound supplied, the single remote request issued by
`get_events` uses the current timestamp `env.now` as `timeMin` and the fixed
sentinel `2038-12-31T23:59:59Z` as `timeMax`. -/
theorem C2_default_window (env : Env) (cid : String) (mr : Nat) (c : Creds)
    (h : (acquire_creds env).1 = Except.ok c) :
    (get_events env cid none none mr).2.requests = [mk_request cid env.now sentinel mr] :=
  get_events_requests_ok env cid none none mr c h

theorem C2_witness :
    (get_events envOk "primary" none none 10).2.requests =
      [mk_request "primary" envOk.now sentinel 10] :=
  C2_default_window envOk "primary" 10 credsValid rfl

/-- Claim C3: `get_todays_events` on date `(y, mo, d)` delegates to
`get_events` with bounds formatted from that date at 00:00:00 and at
23:59:59, passing the calendar id and `max_results` through; on 2024-06-15
the bounds render as `2024-06-15T00:00:00Z` and `2024-06-15T23:59:59Z`. -/
theorem C3_todays_bounds (env : Env) (y mo d : Nat) (cid : String) (mr : Nat) :
    (get_todays_events env ⟨y, mo, d⟩ cid mr).1 =
      (get_events env cid (some (strftime_datetime y mo d 0 0 0))
        (some (strftime_datetime y mo d 23 59 59)) mr).1 ∧
    (get_todays_events env ⟨y, mo, d⟩ cid mr).2.requests =
      (get_events env cid (some (strftime_datetime y mo d 0 0 0))
        (some (strftime_datetime y mo d 23 59 59)) mr).2.requests ∧
    strftime_datetime 2024 6 15 0 0 0 = "2024-06-15T00:00:00Z" ∧
    strftime_datetime 2024 6 15 23 59 59 = "2024-06-15T23:59:59Z" :=
  ⟨rfl, rfl, by decide, by decide⟩

/-- Claim C10: when the remote call succeeds but the response carries no
`"items"` key, `get_events` returns the empty list. -/
theorem C10_missing_items (env : Env) (cid : String) (st et : Option String) (mr : Nat)
    (c : Creds) (res : EventsResult)
    (hc : (acquire_creds env).1 = Except.ok c)
    (hs : env.service c (mk_request cid (resolve_start st env.now) (resolve_end et) mr) =
      Except.ok res)
    (hi : res.items = none) :
    (get_events env cid st et mr).1 = Except.ok (some []) := by
  have h := get_events_ok_service env cid st et mr c res hc hs
  rw [hi] at h
  exact h

theorem C10_witness :
    (get_events envNoItems "primary" none none 10).1 = Except.ok (some []) :=
  C10_missing_items envNoItems "primary" none none 10 credsValid ⟨none⟩ rfl rfl rfl

/-- Claim C4: a successful `get_events` call issues exactly one remote list
request with the given calendar id, the resolved window as
`timeMin`/`timeMax`, `singleEvents = true`, `orderBy = "startTime"` and a cap
of `max_results`, and returns the service's item sequence unmodified. -/
theorem C4_single_request (env : Env) (cid st et : String) (mr : Nat)
    (c : Creds) (res : EventsResult)
    (hst : ¬ st = "") (het : ¬ et = "")
    (hc : (acquire_creds env).1 = Except.ok c)
    (hs : env.service c (mk_request cid st et mr) = Except.ok res) :
    (get_events env cid (some st) (some et) mr).1 =
      Except.ok (some (res.items.getD [])) ∧
    (get_events env cid (some st) (some et) mr).2.requests = [mk_request cid st et mr] := by
  have hrs : resolve_start (some st) env.now = st := by simp [resolve_start, hst]
  have hre : resolve_end (some et) = et := by simp [resolve_end, het]
  constructor
  · exact get_events_ok_service env cid (some st) (some et) mr c res hc (by rw [hrs, hre]; exact hs)
  · have hq := get_events_requests_ok env cid (some st) (some et) mr c hc
    rw [hrs, hre] at hq
    exact hq

theorem C4_witness :
    (get_events envOk "primary" (some "2024-06-15T00:00:00Z")
        (some "2024-06-15T23:59:59Z") 10).1 =
      Except.ok (some ((⟨some [ev1]⟩ : EventsResult).items.getD [])) ∧
    (get_events envOk "primary" (some "2024-06-15T00:00:00Z")
        (some "2024-06-15T23:59:59Z") 10).2.requests =
      [mk_request "primary" "2024-06-15T00:00:00Z" "2024-06-15T23:59:59Z" 10] :=
  C4_single_request envOk "primary" "2024-06-15T00:00:00Z" "2024-06-15T23:59:59Z" 10
    credsValid ⟨some [ev1]⟩ (by decide) (by decide) rfl rfl

/-- Claim C5: an existing token file holding an expired credential with a
refresh token is refreshed and the new token persisted, with zero
interactive-flow invocations. -/
theorem C5_refresh_no_flow (env : Env) (s : String) (c2 : Creds)
    (h1 : env.token_file = some s)
    (h2 : (env.parse s).valid = false)
    (h3 : (env.parse s).expired = true)
    (h4 : (env.parse s).refresh_token = true)
    (h5 : env.refresh (env.parse s) = Except.ok c2) :
    acquire_creds env = (Except.ok c2, ⟨1, 1, 0, [c2.json], [], []⟩) := by
  unfold acquire_creds
  rw [h1]
  simp [h2, h3, h4, h5]

theorem C5_witness :
    acquire_creds envExpired = (Except.ok credsNew, ⟨1, 1, 0, [credsNew.json], [], []⟩) :=
  C5_refresh_no_flow envExpired "tokfile" credsNew rfl rfl rfl rfl rfl

/-- Claim C6 (amended): with no token file the interactive flow runs exactly
once and its token is persisted; but when refreshing fails the error
propagates and the interactive flow is never invoked. -/
theorem C6_flow_and_refresh (env : Env) (c : Creds) (s e : String) :
    (env.token_file = none → env.flow = Except.ok c →
      acquire_creds env = (Except.ok c, ⟨0, 0, 1, [c.json], [], []⟩)) ∧
    (env.token_file = some s → (env.parse s).valid = false →
      (env.parse s).expired = true → (env.parse s).refresh_token = true →
      env.refresh (env.parse s) = Except.error e →
      acquire_creds env = (Except.error e, ⟨1, 1, 0, [], [], []⟩)) := by
  constructor
  · intro h1 h2
    unfold acquire_creds
    rw [h1, h2]
  · intro h1 h2 h3 h4 h5
    unfold acquire_creds
    rw [h1]
    simp [h2, h3, h4, h5]

theorem C6_witness :
    acquire_creds envNoToken = (Except.ok credsNew, ⟨0, 0, 1, [credsNew.json], [], []⟩) ∧
    acquire_creds envRefreshFail = (Except.error "refresh failed", ⟨1, 1, 0, [], [], []⟩) :=
  ⟨(C6_flow_and_refresh envNoToken credsNew "" "").1 rfl rfl,
   (C6_flow_and_refresh envRefreshFail credsNew "tokfile" "refresh failed").2 rfl rfl rfl rfl rfl⟩

/-- Claim C6 (counterexample): when refreshing fails, the error propagates,
nothing is persisted, and the interactive flow is invoked zero times — not
exactly once as the claim states. -/
theorem C6_counterexample :
    (acquire_creds envRefreshFail).1 = Except.error "refresh failed" ∧
    (acquire_creds envRefreshFail).2.flows = 0 ∧
    (acquire_creds envRefreshFail).2.writes = [] ∧
    decide ((acquire_creds envRefreshFail).2.flows = 1) = false :=
  ⟨rfl, rfl, rfl, rfl⟩

/-- Claim C7: the token file is written only when a write is justified by a
refresh or an interactive flow, and a valid loaded token is returned as-is
with no write, no refresh and no flow. -/
theorem C7_write_frame (env : Env) (s : String) :
    writes_justified (acquire_creds env) = true ∧
    (env.token_file = some s → (env.parse s).valid = true →
      acquire_creds env = (Except.ok (env.parse s), ⟨1, 0, 0, [], [], []⟩)) := by
  constructor
  · unfold writes_justified acquire_creds
    cases env.token_file with
    | none => cases env.flow <;> rfl
    | some s2 =>
      dsimp only
      split
      · rfl
      · split
        · cases env.refresh (env.parse s2) <;> rfl
        · cases env.flow <;> rfl
  · intro h1 h2
    unfold acquire_creds
    rw [h1]
    simp [h2]

theorem C7_witness :
    writes_justified (acquire_creds envOk) = true ∧
    acquire_creds envOk = (Except.ok (envOk.parse "tokfile"), ⟨1, 0, 0, [], [], []⟩) :=
  ⟨(C7_write_frame envOk "tokfile").1, (C7_write_frame envOk "tokfile").2 rfl rfl⟩

/-- Claim C8 (amended): requests issued with defaulted bounds (provided the
current timestamp does not exceed the sentinel) and requests issued via
`get_todays_events` satisfy `timeMin ≤ timeMax`; caller-supplied bounds are
forwarded unvalidated. -/
theorem C8_window_order (env : Env) (cid : String) (mr y mo d : Nat) (req1 req2 : ListRequest)
    (hnow : iso_le env.now sentinel = true)
    (h1 : req1 ∈ (get_events env cid none none mr).2.requests)
    (h2 : req2 ∈ (get_todays_events env ⟨y, mo, d⟩ cid mr).2.requests) :
    iso_le req1.timeMin req1.timeMax = true ∧ iso_le req2.timeMin req2.timeMax = true := by
  have hreq2 : (get_todays_events env ⟨y, mo, d⟩ cid mr).2.requests =
      (get_events env cid (some (strftime_date y mo d))
        (some (strftime_datetime y mo d 23 59 59)) mr).2.requests := rfl
  rw [hreq2] at h2
  cases hacq : (acquire_creds env).1 with
  | error e =>
    rw [get_events_requests_err env cid none none mr e hacq] at h1
    exact absurd h1 (List.not_mem_nil req1)
  | ok c =>
    constructor
    · rw [get_events_requests_ok env cid none none mr c hacq] at h1
      have he : req1 = mk_request cid (resolve_start none env.now) (resolve_end none) mr :=
        List.mem_singleton.mp h1
      rw [he]
      exact hnow
    · rw [get_events_requests_ok env cid (some (strftime_date y mo d))
        (some (strftime_datetime y mo d 23 59 59)) mr c hacq] at h2
      have hne1 : ¬ strftime_date y mo d = "" := strftime_ne_empty y mo d 0 0 0
      have hne2 : ¬ strftime_datetime y mo d 23 59 59 = "" := strftime_ne_empty y mo d 23 59 59
      have hr1 : resolve_start (some (strftime_date y mo d)) env.now =
          strftime_date y mo d := by simp [resolve_start, hne1]
      have hr2 : resolve_end (some (strftime_datetime y mo d 23 59 59)) =
          strftime_datetime y mo d 23 59 59 := by simp [resolve_end, hne2]
      rw [hr1, hr2] at h2
      have he : req2 = mk_request cid (strftime_date y mo d)
          (strftime_datetime y mo d 23 59 59) mr :=
        List.mem_singleton.mp h2
      rw [he]
      exact iso_le_strftime_day y mo d

theorem C8_witness :
    iso_le (mk_request "primary" envOk.now sentinel 10).timeMin
      (mk_request "primary" envOk.now sentinel 10).timeMax = true ∧
    iso_le (mk_request "primary" "2024-06-15T00:00:00Z" "2024-06-15T23:59:59Z" 10).timeMin
      (mk_request "primary" "2024-06-15T00:00:00Z" "2024-06-15T23:59:59Z" 10).timeMax = true :=
  C8_window_order envOk "primary" 10 2024 6 15
    (mk_request "primary" envOk.now sentinel 10)
    (mk_request "primary" "2024-06-15T00:00:00Z" "2024-06-15T23:59:59Z" 10)
    (by decide) (by decide) (by decide)

/-- Claim C8 (counterexample): `get_events` forwards caller-supplied bounds
with `timeMin` after `timeMax` to the remote service without validation. -/
theorem C8_counterexample :
    (get_events envOk "primary" (some "2039-01-01T00:00:00Z")
        (some "2000-01-01T00:00:00Z") 10).2.requests =
      [mk_request "primary" "2039-01-01T00:00:00Z" "2000-01-01T00:00:00Z" 10] ∧
    iso_le "2039-01-01T00:00:00Z" "2000-01-01T00:00:00Z" = false :=
  ⟨rfl, by decide⟩

/-- Claim C9 (amended): whenever the token file exists, every single
`get_events` call reads it once — the file is re-read on every query, not
once per process. -/
theorem C9_reads_every_call (env : Env) (cid : String) (st et : Option String) (mr : Nat)
    (s : String) (h : env.token_file = some s) :
    (get_events env cid st et mr).2.reads = 1 := by
  rw [get_events_reads]
  exact acquire_creds_reads_of_some env s h

theorem C9_witness : (get_events envOk "primary" none none 10).2.reads = 1 :=
  C9_reads_every_call envOk "primary" none none 10 "tokfile" rfl

/-- Claim C9 (counterexample): in a process run of two consecutive queries,
the second query reads the token file once as well, not zero times as a
read-once-at-process-start lifecycle would require. -/
theorem C9_counterexample :
    (run_two_queries envOk).1.reads = 1 ∧
    (run_two_queries envOk).2.reads = 1 ∧
    decide ((run_two_queries envOk).2.reads = 0) = false :=
  ⟨rfl, rfl, rfl⟩
